import Mathlib

/-!
Verification of the report aggregation and HTTP helper logic of the
playwright-api repository. The definitions below are shallow embeddings of
the TypeScript/JavaScript sources:
  - `ReportGenerator` (src/utils/reportGenerator.ts): `addTestResult`,
    `generateHTMLReport`, `generateSummary`;
  - `ApiHelpers` (src/utils/apiHelpers.ts): `makeRequest`,
    `makeRequestWithoutAuth`;
  - `HTMLReportGenerator` (scripts/generateReport.js): `getTestResults`,
    `generateSummary`;
  - environment selection (src/config/environment.ts):
    `getCurrentEnvironment`.
JavaScript numbers are modelled as `Int` (durations, counts read from JSON)
or `Nat` (counters that only ever increase); these are exact binary64
values in the magnitudes arising here. The float expressions feeding
`toFixed` are modelled exactly: `fl` rounds an exact rational to the
nearest binary64 value (ties to even, normal range), each arithmetic
operation is one such correctly rounded step, and `toFixed` follows the
ECMA-262 rule (nearest numerator, ties towards the larger). Property
lookup on the plain `ENVIRONMENTS` object is modelled with its prototype
chain: a key that is no own property can still hit a truthy member of
`Object.prototype`. Ambient process state (the current time shown in
reports and the `TEST_ENV` variable) is passed explicitly as parameters.
-/

set_option maxRecDepth 400000

namespace PwApi

/-- Test status as used by the report generator: the string union
`passed | failed | skipped` from the TypeScript source. -/
inductive Status where
  | passed
  | failed
  | skipped
deriving DecidableEq, Repr

/-- The string the status prints as in template interpolations. -/
def Status.str : Status → String
  | .passed => "passed"
  | .failed => "failed"
  | .skipped => "skipped"

/-- `TestResult` interface from reportGenerator.ts. -/
structure TestResult where
  name : String
  status : Status
  duration : Int
  error : Option String
  timestamp : String
  environment : String
deriving DecidableEq, Repr

/-- `TestSuite` interface from reportGenerator.ts. -/
structure TestSuite where
  name : String
  total : Nat
  passed : Nat
  failed : Nat
  skipped : Nat
  duration : Int
  results : List TestResult
deriving DecidableEq, Repr

/-- The fresh suite object created by `addTestResult` when no suite with
the given name exists yet. -/
def emptySuite (suiteName : String) : TestSuite :=
  { name := suiteName
    total := 0
    passed := 0
    failed := 0
    skipped := 0
    duration := 0
    results := [] }

/-- The `TestResult` object constructed inside `addTestResult`; `now` is
the value of `new Date().toISOString()` and `env` the value of
`process.env.TEST_ENV || 'practice'` at call time. -/
def mkResult (testName : String) (status : Status) (duration : Int)
    (error : Option String) (now env : String) : TestResult :=
  { name := testName
    status := status
    duration := duration
    error := error
    timestamp := now
    environment := env }

/-- The mutation `addTestResult` performs on the suite it found or created:
push the result, bump `total` and `duration`, and bump the counter matching
the status (the `switch` statement). -/
def recordInSuite (s : TestSuite) (r : TestResult) : TestSuite :=
  { s with
    results := s.results ++ [r]
    total := s.total + 1
    duration := s.duration + r.duration
    passed := if r.status = .passed then s.passed + 1 else s.passed
    failed := if r.status = .failed then s.failed + 1 else s.failed
    skipped := if r.status = .skipped then s.skipped + 1 else s.skipped }

/-- `ReportGenerator.addTestResult`, state-passing over `this.results`:
`this.results.find(s => s.name === suiteName)` locates the first suite with
the given name; if none exists a fresh suite is pushed at the end. The
found or created suite is then updated by `recordInSuite`. -/
def addTestResult (suites : List TestSuite) (suiteName testName : String)
    (status : Status) (duration : Int) (error : Option String)
    (now env : String) : List TestSuite :=
  match suites with
  | [] => [recordInSuite (emptySuite suiteName) (mkResult testName status duration error now env)]
  | s :: rest =>
    if s.name = suiteName then
      recordInSuite s (mkResult testName status duration error now env) :: rest
    else
      s :: addTestResult rest suiteName testName status duration error now env

/-- One call to `addTestResult` together with the ambient timestamp and
environment observed during that call. -/
structure RecordCall where
  suiteName : String
  testName : String
  status : Status
  duration : Int
  error : Option String
  now : String
  env : String
deriving DecidableEq, Repr

/-- Replay a sequence of `addTestResult` calls starting from the empty
collector (`this.results = []`). -/
def runCalls (calls : List RecordCall) : List TestSuite :=
  calls.foldl
    (fun st c => addTestResult st c.suiteName c.testName c.status c.duration c.error c.now c.env)
    []

/-- `this.results.reduce((sum, suite) => sum + suite.total, 0)`. -/
def totalTests (suites : List TestSuite) : Nat :=
  suites.foldl (fun sum s => sum + s.total) 0

/-- `this.results.reduce((sum, suite) => sum + suite.passed, 0)`. -/
def totalPassed (suites : List TestSuite) : Nat :=
  suites.foldl (fun sum s => sum + s.passed) 0

/-- `this.results.reduce((sum, suite) => sum + suite.failed, 0)`. -/
def totalFailed (suites : List TestSuite) : Nat :=
  suites.foldl (fun sum s => sum + s.failed) 0

/-- `this.results.reduce((sum, suite) => sum + suite.skipped, 0)`. -/
def totalSkipped (suites : List TestSuite) : Nat :=
  suites.foldl (fun sum s => sum + s.skipped) 0

/-- `this.results.reduce((sum, suite) => sum + suite.duration, 0)`. -/
def totalDuration (suites : List TestSuite) : Int :=
  suites.foldl (fun sum s => sum + s.duration) 0

/-!
#### Exact model of JavaScript number arithmetic

JavaScript numbers are IEEE 754 binary64 values, and every binary64 value
and every correctly rounded arithmetic result is an exact rational, so the
doubles flowing through `toFixed` are modelled by the exact rationals they
denote. `fl` rounds an exact rational to the nearest binary64 value (ties
to even) in the normal range — subnormal and overflowing magnitudes do not
arise in this code — and `jsToFixed1`/`jsToFixed2` implement the
`Number.prototype.toFixed` rule of ECMA-262: the integer numerator closest
to the double's exact value, ties towards the larger. The arithmetic
below is written with `mkRat` and the reduced-form helpers so that every
step evaluates inside the kernel. -/

/-- Exact product of two rationals. -/
def ratMul (a b : ℚ) : ℚ :=
  mkRat (a.num * b.num) (a.den * b.den)

/-- Exact sum of two rationals. -/
def ratAdd (a b : ℚ) : ℚ :=
  mkRat (a.num * (b.den : Int) + b.num * (a.den : Int)) (a.den * b.den)

/-- Exact difference of two rationals. -/
def ratSub (a b : ℚ) : ℚ :=
  mkRat (a.num * (b.den : Int) - b.num * (a.den : Int)) (a.den * b.den)

/-- Number of binary digits of `n` (fuel-driven so that it evaluates by
structural recursion; `fuel` bounds the bit width). -/
def bitlen (fuel n : Nat) : Nat :=
  match fuel with
  | 0 => 0
  | f + 1 => if n = 0 then 0 else bitlen f (n / 2) + 1

/-- The rational `2 ^ e` for an integer exponent. -/
def pow2 (e : Int) : ℚ :=
  match e with
  | Int.ofNat n => mkRat (Int.ofNat (2 ^ n)) 1
  | Int.negSucc n => mkRat 1 (2 ^ (n + 1))

/-- Floor of a non-negative rational, as a natural number. -/
def posRatFloor (q : ℚ) : Nat :=
  q.num.toNat / q.den

/-- `⌊log₂ q⌋` for a positive rational, from the bit widths of numerator
and denominator. -/
def floorLog2 (q : ℚ) : Int :=
  let e0 : Int := (bitlen 1200 q.num.toNat : Int) - (bitlen 1200 q.den : Int)
  if Rat.blt q (pow2 e0) then e0 - 1 else e0

/-- Round a positive rational to the nearest binary64 value, ties to even:
scale into the 53-bit significand range `[2^52, 2^53)`, round the
significand, and scale back. -/
def flPos (q : ℚ) : ℚ :=
  let e : Int := floorLog2 q - 52
  let scaled : ℚ := ratMul q (pow2 (-e))
  let n0 : Nat := posRatFloor scaled
  let fr : ℚ := ratSub scaled (mkRat (Int.ofNat n0) 1)
  let n : Nat :=
    if Rat.blt fr (mkRat 1 2) then n0
    else if Rat.blt (mkRat 1 2) fr then n0 + 1
    else if n0 % 2 = 0 then n0 else n0 + 1
  ratMul (mkRat (Int.ofNat n) 1) (pow2 e)

/-- Round an exact rational to the nearest binary64 value (ties to even),
covering the normal range used by this code. -/
def fl (q : ℚ) : ℚ :=
  if q.num = 0 then 0
  else if Rat.blt (mkRat 0 1) q then flPos q
  else Rat.neg (flPos (Rat.neg q))

/-- Digits of `toFixed(1)` for a non-negative value: the integer closest
to ten times the value, ties towards the larger integer. -/
def toFixedDigits1 (x : ℚ) : String :=
  let n : Nat := posRatFloor (ratAdd (ratMul x (mkRat 10 1)) (mkRat 1 2))
  toString (n / 10) ++ "." ++ toString (n % 10)

/-- `Number.prototype.toFixed(1)` on the exact value of a double. -/
def jsToFixed1 (x : ℚ) : String :=
  if Rat.blt x (mkRat 0 1) then "-" ++ toFixedDigits1 (Rat.neg x) else toFixedDigits1 x

/-- Left-pad with a zero to two digits, for the fractional part of a
two-decimal fixed rendering. -/
def pad2 (n : Nat) : String :=
  if n < 10 then "0" ++ toString n else toString n

/-- Digits of `toFixed(2)` for a non-negative value. -/
def toFixedDigits2 (x : ℚ) : String :=
  let n : Nat := posRatFloor (ratAdd (ratMul x (mkRat 100 1)) (mkRat 1 2))
  toString (n / 100) ++ "." ++ pad2 (n % 100)

/-- `Number.prototype.toFixed(2)` on the exact value of a double. -/
def jsToFixed2 (x : ℚ) : String :=
  if Rat.blt x (mkRat 0 1) then "-" ++ toFixedDigits2 (Rat.neg x) else toFixedDigits2 x

/-- The display `${(ms / 1000).toFixed(2)}` converting milliseconds to
seconds: the division `ms / 1000` is one correctly rounded binary64
operation on the exact integer `ms` (integers of this size are exact
doubles), then `toFixed(2)` formats the double's exact value. -/
def msToSec2 (ms : Int) : String :=
  jsToFixed2 (fl (mkRat ms 1000))

/-- The expression `((passed / total) * 100).toFixed(1)` of
`generateSummary` (evaluated only when `total > 0`): the division and the
multiplication are each one correctly rounded binary64 operation (the
counters and `100` are exact doubles), then `toFixed(1)` formats the
resulting double's exact value. -/
def percentFixed1 (passed total : Nat) : String :=
  jsToFixed1 (fl (ratMul (fl (mkRat (Int.ofNat passed) total)) (mkRat 100 1)))

/-- The success-rate interpolation of `ReportGenerator.generateSummary`:
`totalTests > 0 ? ((totalPassed / totalTests) * 100).toFixed(1) : 0`
(the number `0` prints as the string `0`). -/
def summarySuccessRate (suites : List TestSuite) : String :=
  if totalTests suites > 0 then
    percentFixed1 (totalPassed suites) (totalTests suites)
  else "0"

/-- Modelled from the spec: successRate is 0 when totalTests is 0 and
otherwise equals `100 * passed / total` rounded to one decimal place,
rendered with one fractional digit. The rounded value is
`round (100 * passed / total * 10) / 10` over the exact rationals. -/
def specSuccessRateStr (passed total : Nat) : String :=
  if total = 0 then "0"
  else
    let n : ℤ := round ((100 * (passed : ℚ)) / (total : ℚ) * 10)
    toString (n / 10) ++ "." ++ toString (n % 10).natAbs

/-- `process.env.TEST_ENV || 'practice'`: the empty string and an unset
variable are falsy in JavaScript. -/
def envOrPractice : Option String → String
  | some e => if e = "" then "practice" else e
  | none => "practice"

/-- `ReportGenerator.generateSummary`: the plain-text execution summary.
`now` is `new Date().toLocaleString()`, `env` is `process.env.TEST_ENV`. -/
def generateSummary (suites : List TestSuite) (now : String) (env : Option String) : String :=
  "\n🧪 Test Execution Summary\n==========================\n📅 Date: " ++ now
  ++ "\n🌍 Environment: " ++ envOrPractice env
  ++ "\n⏱️ Duration: " ++ msToSec2 (totalDuration suites) ++ "s\n\n📊 Results:\n✅ Passed: "
  ++ toString (totalPassed suites) ++ "\n❌ Failed: " ++ toString (totalFailed suites)
  ++ "\n⏭️ Skipped: " ++ toString (totalSkipped suites) ++ "\n📝 Total: "
  ++ toString (totalTests suites) ++ "\n\n📈 Success Rate: " ++ summarySuccessRate suites
  ++ "%\n    "

example : msToSec2 0 = "0.00" := by decide
example : msToSec2 200 = "0.20" := by decide
example : msToSec2 1999 = "2.00" := by decide
example : msToSec2 15 = "0.01" := by decide
example : msToSec2 175 = "0.17" := by decide
example : msToSec2 (-15) = "-0.01" := by decide
example : percentFixed1 1 2 = "50.0" := by decide
example : percentFixed1 1 16 = "6.3" := by decide
example : percentFixed1 23 80 = "28.7" := by decide

/-- Part 1 of 5 of the static head of the `generateHTMLReport` template
(split only for bounded kernel evaluation; the concatenation below is the
exact template text). -/
def htmlDocHeadPart1 : String :=
"
<!DOCTYPE html>
<html lang=\"en\">
<head>
    <meta charset=\"UTF-8\">
    <meta name=\"viewport\" content=\"width=device-width, initial-scale=1.0\">
    <title>Playwright API Test Report</title>
    <style>
        * \x7b
            margin: 0;
            padding: 0;
            box-sizing: border-box;
        \x7d
        
        body \x7b
            font-family: -apple-system, BlinkMacSystemFont, \x27Segoe UI\x27, Roboto, sans-serif;
            line-height: 1.6;
            color: #333;
            background: #f5f5f5;
        \x7d
        
        .container \x7b
            max-width: 1200px;
            margin: 0 auto;
            padding: 20px;
        \x7d
        
        .header \x7b
            background: linear-gradient(135deg, #667eea 0%, #764ba2 100%);
            color: white;
            padding: 30px;
            border-radius: 10px;
            margin-bottom: 30px;
            text-align: center;
"

/-- Part 2 of 5 of the static head of the `generateHTMLReport` template
(split only for bounded kernel evaluation; the concatenation below is the
exact template text). -/
def htmlDocHeadPart2 : String :=
"        \x7d
        
        .header h1 \x7b
            font-size: 2.5em;
            margin-bottom: 10px;
        \x7d
        
        .stats \x7b
            display: grid;
            grid-template-columns: repeat(auto-fit, minmax(200px, 1fr));
            gap: 20px;
            margin-bottom: 30px;
        \x7d
        
        .stat-card \x7b
            background: white;
            padding: 20px;
            border-radius: 10px;
            box-shadow: 0 2px 10px rgba(0,0,0,0.1);
            text-align: center;
        \x7d
        
        .stat-number \x7b
            font-size: 2em;
            font-weight: bold;
            margin-bottom: 5px;
        \x7d
        
        .stat-label \x7b
            color: #666;
            font-size: 0.9em;
        \x7d
        
        .passed \x7b color: #28a745; \x7d
        .failed \x7b color: #dc3545; \x7d
        .skipped \x7b color: #ffc107; \x7d
        
        .suite \x7b
"

/-- Part 3 of 5 of the static head of the `generateHTMLReport` template
(split only for bounded kernel evaluation; the concatenation below is the
exact template text). -/
def htmlDocHeadPart3 : String :=
"            background: white;
            border-radius: 10px;
            box-shadow: 0 2px 10px rgba(0,0,0,0.1);
            margin-bottom: 20px;
            overflow: hidden;
        \x7d
        
        .suite-header \x7b
            background: #f8f9fa;
            padding: 15px 20px;
            border-bottom: 1px solid #dee2e6;
            display: flex;
            justify-content: space-between;
            align-items: center;
        \x7d
        
        .suite-name \x7b
            font-weight: bold;
            font-size: 1.1em;
        \x7d
        
        .suite-stats \x7b
            display: flex;
            gap: 15px;
        \x7d
        
        .test-result \x7b
            padding: 15px 20px;
            border-bottom: 1px solid #f1f3f4;
            display: flex;
            justify-content: space-between;
            align-items: center;
        \x7d
        
        .test-result:last-child \x7b
"

/-- Part 4 of 5 of the static head of the `generateHTMLReport` template
(split only for bounded kernel evaluation; the concatenation below is the
exact template text). -/
def htmlDocHeadPart4 : String :=
"            border-bottom: none;
        \x7d
        
        .test-name \x7b
            font-family: \x27Monaco\x27, \x27Menlo\x27, monospace;
            font-size: 0.9em;
        \x7d
        
        .test-status \x7b
            padding: 4px 8px;
            border-radius: 4px;
            font-size: 0.8em;
            font-weight: bold;
            text-transform: uppercase;
        \x7d
        
        .status-passed \x7b
            background: #d4edda;
            color: #155724;
        \x7d
        
        .status-failed \x7b
            background: #f8d7da;
            color: #721c24;
        \x7d
        
        .status-skipped \x7b
            background: #fff3cd;
            color: #856404;
        \x7d
        
        .test-duration \x7b
            color: #666;
            font-size: 0.9em;
        \x7d
        
        .error-details \x7b
            background: #f8f9fa;
            padding: 15px;
            margin: 10px 0;
"

/-- Part 5 of 5 of the static head of the `generateHTMLReport` template
(split only for bounded kernel evaluation; the concatenation below is the
exact template text). -/
def htmlDocHeadPart5 : String :=
"            border-left: 4px solid #dc3545;
            font-family: \x27Monaco\x27, \x27Menlo\x27, monospace;
            font-size: 0.9em;
            white-space: pre-wrap;
        \x7d
        
        .footer \x7b
            text-align: center;
            margin-top: 40px;
            color: #666;
            font-size: 0.9em;
        \x7d
        
        @media (max-width: 768px) \x7b
            .stats \x7b
                grid-template-columns: 1fr;
            \x7d
            
            .suite-header, .test-result \x7b
                flex-direction: column;
                gap: 10px;
                text-align: center;
            \x7d
        \x7d
    </style>
</head>
<body>
    <div class=\"container\">
        <div class=\"header\">
            <h1>🚀 Playwright API Test Report</h1>
            <p>Generated on "

/-- The static part of the `generateHTMLReport` template literal from its
start up to the interpolation `${new Date().toLocaleString()}`: document
type, head, the full embedded stylesheet, and the opening of the header
block. -/
def htmlDocHead : String :=
  htmlDocHeadPart1 ++ htmlDocHeadPart2 ++ htmlDocHeadPart3 ++ htmlDocHeadPart4 ++ htmlDocHeadPart5

/-- The static template text between the timestamp interpolation and the
statistics grid. -/
def htmlAfterNow : String :=
  "</p>\n        </div>\n        \n        "

/-- The statistics grid of `generateHTMLReport`, interpolating the five
reduced totals (passed, failed, skipped, total tests, total duration in
seconds). -/
def statsSection (p f sk t : Nat) (dur : Int) : String :=
  "<div class=\"stats\">\n            <div class=\"stat-card\">\n                <div class=\"stat-number passed\">"
  ++ toString p
  ++ "</div>\n                <div class=\"stat-label\">Passed</div>\n            </div>\n            <div class=\"stat-card\">\n                <div class=\"stat-number failed\">"
  ++ toString f
  ++ "</div>\n                <div class=\"stat-label\">Failed</div>\n            </div>\n            <div class=\"stat-card\">\n                <div class=\"stat-number skipped\">"
  ++ toString sk
  ++ "</div>\n                <div class=\"stat-label\">Skipped</div>\n            </div>\n            <div class=\"stat-card\">\n                <div class=\"stat-number\">"
  ++ toString t
  ++ "</div>\n                <div class=\"stat-label\">Total Tests</div>\n            </div>\n            <div class=\"stat-card\">\n                <div class=\"stat-number\">"
  ++ msToSec2 dur
  ++ "s</div>\n                <div class=\"stat-label\">Total Duration</div>\n            </div>\n        </div>"

/-- The static template text between the statistics grid and the suites
interpolation. -/
def htmlAfterStats : String :=
  "\n        \n        "

/-- The per-result template of `generateHTMLReport` without the error
interpolation: the `test-result` div listing name, status badge and
duration in seconds, up to where the error block is interpolated. -/
def resultEntry (r : TestResult) : String :=
  "\n                    <div class=\"test-result\">\n                        <div class=\"test-name\">"
  ++ r.name
  ++ "</div>\n                        <div class=\"test-status status-"
  ++ r.status.str
  ++ "\">"
  ++ r.status.str
  ++ "</div>\n                        <div class=\"test-duration\">"
  ++ msToSec2 r.duration
  ++ "s</div>\n                    </div>\n                    "

/-- The inline error block `<div class=\"error-details\">...</div>`. -/
def errorDetailsBlock (e : String) : String :=
  "<div class=\"error-details\">" ++ e ++ "</div>"

/-- One item of `suite.results.map(result => ...)`: the result entry,
then `${result.error ? error-details-div : ''}` (JavaScript truthiness:
an absent or empty error string yields nothing), then the closing
whitespace of the item template. -/
def renderResult (r : TestResult) : String :=
  resultEntry r
  ++ (match r.error with
      | some e => if e = "" then "" else errorDetailsBlock e
      | none => "")
  ++ "\n                "

/-- One item of `this.results.map(suite => ...)`: the suite card with its
header, per-status counts, duration, and the joined result items. -/
def suiteBlock (s : TestSuite) : String :=
  "\n            <div class=\"suite\">\n                <div class=\"suite-header\">\n                    <div class=\"suite-name\">"
  ++ s.name
  ++ "</div>\n                    <div class=\"suite-stats\">\n                        <span class=\"passed\">✅ "
  ++ toString s.passed
  ++ "</span>\n                        <span class=\"failed\">❌ "
  ++ toString s.failed
  ++ "</span>\n                        <span class=\"skipped\">⏭️ "
  ++ toString s.skipped
  ++ "</span>\n                        <span>⏱️ "
  ++ msToSec2 s.duration
  ++ "s</span>\n                    </div>\n                </div>\n                "
  ++ String.join (s.results.map renderResult)
  ++ "\n            </div>\n        "

/-- `${this.results.map(suite => ...).join('')}`. -/
def suitesSection (suites : List TestSuite) : String :=
  String.join (suites.map suiteBlock)

/-- The static template text between the suites interpolation and the
environment interpolation of the footer. -/
def htmlFooterA : String :=
  "\n        \n        <div class=\"footer\">\n            <p>Report generated by Playwright API Framework</p>\n            <p>Environment: "

/-- The closing static template text after the environment
interpolation. -/
def htmlFooterB : String :=
  "</p>\n        </div>\n    </div>\n</body>\n</html>"

/-- `ReportGenerator.generateHTMLReport`: the full HTML document. `now` is
`new Date().toLocaleString()` and `env` is `process.env.TEST_ENV`, both
read at render time. -/
def generateHTMLReport (suites : List TestSuite) (now : String) (env : Option String) : String :=
  htmlDocHead ++ now ++ htmlAfterNow
  ++ statsSection (totalPassed suites) (totalFailed suites) (totalSkipped suites)
      (totalTests suites) (totalDuration suites)
  ++ htmlAfterStats ++ suitesSection suites
  ++ htmlFooterA ++ envOrPractice env ++ htmlFooterB

/-- The `generateHTMLReport` method viewed as a state transformer on
`this.results`: the method reads the collected suites and performs no
assignment to them, so it returns the state unchanged next to the
document. -/
def generateHTMLReportS (suites : List TestSuite) (now : String) (env : Option String) :
    List TestSuite × String :=
  (suites, generateHTMLReport suites now env)

/-- Number of occurrences of the pattern in the character list (counting
every position where the pattern is a prefix of the remaining suffix). -/
def charListCount (pat : List Char) : List Char → Nat
  | [] => 0
  | c :: rest => (if pat.isPrefixOf (c :: rest) then 1 else 0) + charListCount pat rest

/-- Number of occurrences of `pat` in `s`. -/
def countOccurStr (s pat : String) : Nat :=
  charListCount pat.data s.data

/-- Whether `pat` occurs in `s`. -/
def containsStr (s pat : String) : Bool :=
  countOccurStr s pat != 0

example : countOccurStr "abcbc" "bc" = 2 := by decide
example : containsStr "abcbc" "cb" = true := by decide
example : containsStr "abcbc" "cc" = false := by decide

/-- A nonempty pattern occurs nowhere exactly when it is a prefix of no
suffix. -/
theorem charListCount_eq_zero_iff (p : List Char) (hp : p ≠ []) (l : List Char) :
    charListCount p l = 0 ↔ ∀ i, ¬ p.isPrefixOf (l.drop i) = true := by
  induction l with
  | nil =>
    simp only [charListCount, List.drop_nil, true_iff]
    intro i h
    match p, hp with
    | c :: cs, _ => simp [List.isPrefixOf] at h
  | cons c rest ih =>
    simp only [charListCount]
    constructor
    · intro h i
      by_cases hc : p.isPrefixOf (c :: rest) = true
      · simp [hc] at h
      · rw [if_neg hc, Nat.zero_add] at h
        match i with
        | 0 => exact hc
        | j + 1 => exact (ih.mp h) j
    · intro h
      have h0 := h 0
      simp only [List.drop_zero] at h0
      have hr : charListCount p rest = 0 := ih.mpr (fun i => h (i + 1))
      simp [h0, hr]

/-- A nonempty pattern occurs somewhere exactly when it is a prefix of
some suffix. -/
theorem charListCount_ne_zero_iff (p : List Char) (hp : p ≠ []) (l : List Char) :
    charListCount p l ≠ 0 ↔ ∃ i, p.isPrefixOf (l.drop i) = true := by
  rw [ne_eq, charListCount_eq_zero_iff p hp l]
  push_neg
  simp

/-- An occurrence in the left part of a concatenation survives in the
concatenation. -/
theorem charListCount_append_left (p a b : List Char) (hp : p ≠ [])
    (h : charListCount p a ≠ 0) : charListCount p (a ++ b) ≠ 0 := by
  rw [charListCount_ne_zero_iff p hp] at h ⊢
  obtain ⟨i, hi⟩ := h
  have hi' : p <+: a.drop i := List.isPrefixOf_iff_prefix.mp hi
  have hle : i ≤ a.length := by
    by_contra hgt
    have hnil : a.drop i = [] := List.drop_eq_nil_of_le (by omega)
    rw [hnil] at hi'
    exact hp (List.prefix_nil.mp hi')
  refine ⟨i, ?_⟩
  rw [List.drop_append_of_le_length hle, List.isPrefixOf_iff_prefix]
  exact hi'.trans (List.prefix_append _ b)

/-- An occurrence in the right part of a concatenation survives in the
concatenation. -/
theorem charListCount_append_right (p a b : List Char) (hp : p ≠ [])
    (h : charListCount p b ≠ 0) : charListCount p (a ++ b) ≠ 0 := by
  rw [charListCount_ne_zero_iff p hp] at h ⊢
  obtain ⟨i, hi⟩ := h
  refine ⟨a.length + i, ?_⟩
  rw [← List.drop_drop, List.drop_left]
  exact hi

/-- Absence composes over a concatenation once the boundary window (the
last `|p| - 1` characters of the left part followed by the first `|p| - 1`
characters of the right part) is also free of the pattern: every
occurrence lies within the left part, within the right part, or within
that window. -/
theorem charListCount_append_eq_zero (p a b : List Char) (hp : p ≠ [])
    (ha : charListCount p a = 0) (hb : charListCount p b = 0)
    (hw : charListCount p
        (a.drop (a.length - (p.length - 1)) ++ b.take (p.length - 1)) = 0) :
    charListCount p (a ++ b) = 0 := by
  rw [charListCount_eq_zero_iff p hp] at ha hb hw ⊢
  intro i hpre
  have hm1 : 1 ≤ p.length := by
    match p, hp with
    | c :: cs, _ => simp
  rcases Nat.lt_or_ge i a.length with hlt | hge
  · have hdrop : (a ++ b).drop i = a.drop i ++ b :=
      List.drop_append_of_le_length (Nat.le_of_lt hlt)
    rw [hdrop] at hpre
    have hpre' : p <+: a.drop i ++ b := List.isPrefixOf_iff_prefix.mp hpre
    have hlen : (a.drop i).length = a.length - i := List.length_drop i a
    rcases le_or_lt p.length (a.length - i) with hfit | hstrad
    · refine ha i ?_
      rw [List.isPrefixOf_iff_prefix]
      rw [List.prefix_iff_eq_take] at hpre' ⊢
      rw [List.take_append_eq_append_take] at hpre'
      have h0 : p.length - (a.drop i).length = 0 := by omega
      rw [h0, List.take_zero, List.append_nil] at hpre'
      exact hpre'
    · refine hw (i - (a.length - (p.length - 1))) ?_
      have hik : a.length - (p.length - 1) ≤ i := by omega
      have hwdrop :
          (a.drop (a.length - (p.length - 1)) ++ b.take (p.length - 1)).drop
              (i - (a.length - (p.length - 1)))
            = a.drop i ++ b.take (p.length - 1) := by
        rw [List.drop_append_of_le_length (by simp; omega), List.drop_drop]
        congr 2
        omega
      rw [hwdrop, List.isPrefixOf_iff_prefix]
      rw [List.prefix_iff_eq_take] at hpre' ⊢
      rw [List.take_append_eq_append_take] at hpre' ⊢
      rw [List.take_take]
      have hmin : min (p.length - (a.drop i).length) (p.length - 1)
          = p.length - (a.drop i).length := by omega
      rw [hmin]
      exact hpre'
  · refine hb (i - a.length) ?_
    have hsplit : (a ++ b).drop i = b.drop (i - a.length) := by
      have hi : i = a.length + (i - a.length) := by omega
      conv_lhs => rw [hi]
      rw [← List.drop_drop, List.drop_left]
    rw [← hsplit]
    exact hpre

/-! ### ApiHelpers (src/utils/apiHelpers.ts) -/

/-- `String.prototype.toUpperCase` restricted to the ASCII range, matching
the method strings used by this code base. -/
def jsToUpper (s : String) : String :=
  ⟨s.data.map Char.toUpper⟩

/-- The call the Playwright request context would receive: which client
method is dispatched, on which endpoint, with which headers, and (for POST
and PATCH) which payload. -/
inductive HttpCall where
  | get (endpoint : String) (headers : List (String × String))
  | post (endpoint : String) (headers : List (String × String)) (data : Option String)
  | patch (endpoint : String) (headers : List (String × String)) (data : Option String)
  | delete (endpoint : String) (headers : List (String × String))
deriving DecidableEq, Repr

/-- JavaScript object-spread update `{...base, ...extra}`: keys of `extra`
override equal keys of `base` in place, and remaining `extra` keys are
appended in order. -/
def spreadMerge (base extra : List (String × String)) : List (String × String) :=
  base.map (fun p => match extra.lookup p.1 with
    | some v => (p.1, v)
    | none => p)
  ++ extra.filter (fun q => !(base.any (fun p => p.1 = q.1)))

/-- `ApiHelpers.setupHeaders`:
`{accept: HEADERS.ACCEPT, 'Content-Type': HEADERS.CONTENT_TYPE, ...customHeaders}`. -/
def setupHeaders (customHeaders : List (String × String)) : List (String × String) :=
  spreadMerge [("accept", "application/json"), ("Content-Type", "application/json")]
    customHeaders

/-- `ApiHelpers.addAuthToHeaders`: spread an `Authorization: Bearer <token>`
entry over the headers when an auth token is set. -/
def addAuthToHeaders (authToken : Option String) (headers : List (String × String)) :
    List (String × String) :=
  match authToken with
  | some t => spreadMerge headers [("Authorization", "Bearer " ++ t)]
  | none => headers

/-- `ApiHelpers.makeRequest`: set up headers, add auth, then dispatch on
`method.toUpperCase()`; an unrecognised verb throws
`Unsupported HTTP method: ${method}` before any request is issued
(`Except.error` carries the thrown message; `Except.ok` carries the
dispatched call). -/
def makeRequest (method endpoint : String) (data : Option String)
    (customHeaders : List (String × String)) (authToken : Option String) :
    Except String HttpCall :=
  let headers := setupHeaders customHeaders
  let finalHeaders := addAuthToHeaders authToken headers
  match jsToUpper method with
  | "GET" => .ok (.get endpoint finalHeaders)
  | "POST" => .ok (.post endpoint finalHeaders data)
  | "PATCH" => .ok (.patch endpoint finalHeaders data)
  | "DELETE" => .ok (.delete endpoint finalHeaders)
  | _ => .error ("Unsupported HTTP method: " ++ method)

/-- `ApiHelpers.makeRequestWithoutAuth`: same dispatch with the auth step
skipped. -/
def makeRequestWithoutAuth (method endpoint : String) (data : Option String)
    (customHeaders : List (String × String)) : Except String HttpCall :=
  let headers := setupHeaders customHeaders
  match jsToUpper method with
  | "GET" => .ok (.get endpoint headers)
  | "POST" => .ok (.post endpoint headers data)
  | "PATCH" => .ok (.patch endpoint headers data)
  | "DELETE" => .ok (.delete endpoint headers)
  | _ => .error ("Unsupported HTTP method: " ++ method)

/-! ### HTMLReportGenerator (scripts/generateReport.js) -/

/-- The `stats` object of a parsed `test-results.json`; each field may be
absent (`undefined` in JavaScript). -/
structure RawStats where
  passed : Option Int
  failed : Option Int
  skipped : Option Int
  total : Option Int
  duration : Option Int
deriving DecidableEq, Repr

/-- The `results` record built by `HTMLReportGenerator.getTestResults`. -/
structure JsResults where
  passed : Int
  failed : Int
  skipped : Int
  total : Int
  duration : String
deriving DecidableEq, Repr

/-- State of `test-results/test-results.json` as observed by
`getTestResults`: the file may be absent (`fs.existsSync` is false), or
present but unreadable or unparsable or without a usable `stats` object
(the `catch` branch fires), or successfully parsed. -/
inductive ResultsFile where
  | absent
  | malformed
  | parsed (stats : RawStats)
deriving DecidableEq, Repr

/-- The defaults `getTestResults` initialises its record with. -/
def defaultJsResults : JsResults :=
  { passed := 0, failed := 0, skipped := 0, total := 0, duration := "0s" }

/-- `HTMLReportGenerator.getTestResults`, returning the results record
together with the list of warnings printed to standard output. An absent
file leaves the defaults untouched without logging; only the `catch`
branch logs the warning. A parsed file overwrites each counter with
`stats.x || 0` and the duration with the fixed two-decimal seconds string
(an absent `stats.duration` yields the JavaScript `NaN` rendering). -/
def getTestResults : ResultsFile → JsResults × List String
  | .absent => (defaultJsResults, [])
  | .malformed => (defaultJsResults, ["⚠️ Could not read test results, using defaults"])
  | .parsed stats =>
    ({ passed := stats.passed.getD 0
       failed := stats.failed.getD 0
       skipped := stats.skipped.getD 0
       total := stats.total.getD 0
       duration := (match stats.duration with
         | some d => msToSec2 d ++ "s"
         | none => "NaNs") }, [])

/-- The `successRate` computed by `HTMLReportGenerator.generateSummary`:
`total > 0 ? ((results.passed / total) * 100).toFixed(1) : 0`, printed into
the report as a string. Counts read from JSON are integers; when `passed`
is negative the rate is not exercised by any claim, so the non-negative
rounding of `percentFixed1` is reused on the absolute values only when
both are non-negative. -/
def jsSuccessRate (r : JsResults) : String :=
  if r.total > 0 then percentFixed1 r.passed.toNat r.total.toNat else "0"

/-! ### Environment configuration (src/config/environment.ts) -/

/-- `EnvironmentConfig` interface. -/
structure EnvironmentConfig where
  baseUrl : String
  timeout : Nat
  retries : Nat
  apiVersion : String
deriving DecidableEq, Repr

/-- The `practice` entry of `ENVIRONMENTS`. -/
def practiceEnv : EnvironmentConfig :=
  { baseUrl := "https://practice.expandtesting.com"
    timeout := 30000, retries := 2, apiVersion := "v1" }

/-- The `staging` entry of `ENVIRONMENTS`. -/
def stagingEnv : EnvironmentConfig :=
  { baseUrl := "https://staging.expandtesting.com"
    timeout := 30000, retries := 3, apiVersion := "v1" }

/-- The `production` entry of `ENVIRONMENTS`. -/
def productionEnv : EnvironmentConfig :=
  { baseUrl := "https://api.expandtesting.com"
    timeout := 60000, retries := 1, apiVersion := "v1" }

/-- The own properties of the `ENVIRONMENTS` object literal. -/
def ENVIRONMENTS : List (String × EnvironmentConfig) :=
  [("practice", practiceEnv), ("staging", stagingEnv), ("production", productionEnv)]

/-- A value readable through `ENVIRONMENTS[key]`: either one of the own
entries, or a member inherited from `Object.prototype` — plain JavaScript
objects delegate failed own-property lookups to their prototype, and every
`Object.prototype` member reachable this way (`toString`, `constructor`,
the `__proto__` accessor, …) is a truthy function or object. -/
inductive PropValue where
  | config (c : EnvironmentConfig)
  | inherited (name : String)
deriving DecidableEq, Repr

/-- The property names that `ENVIRONMENTS[key]` finds on
`Object.prototype` when `key` is no own property. -/
def objectPrototypeKeys : List String :=
  ["constructor", "hasOwnProperty", "isPrototypeOf", "propertyIsEnumerable",
   "toLocaleString", "toString", "valueOf", "__proto__",
   "__defineGetter__", "__defineSetter__", "__lookupGetter__", "__lookupSetter__"]

/-- `ENVIRONMENTS[key]` with JavaScript property-lookup semantics: own
entries first, then the prototype chain; a key found nowhere is
`undefined`. -/
def envLookup (key : String) : Option PropValue :=
  match ENVIRONMENTS.lookup key with
  | some c => some (.config c)
  | none =>
    if objectPrototypeKeys.contains key then some (.inherited key) else none

/-- `getCurrentEnvironment`:
`const env = process.env.TEST_ENV || 'practice'; return ENVIRONMENTS[env] || ENVIRONMENTS.practice`.
Every value the lookup can produce (a config object or an inherited
prototype member) is truthy, so the `||` fallback fires exactly when the
lookup is `undefined`. -/
def getCurrentEnvironment (testEnv : Option String) : PropValue :=
  let env := envOrPractice testEnv
  (envLookup env).getD (.config practiceEnv)

example : getCurrentEnvironment (some "staging") = .config stagingEnv := by decide
example : getCurrentEnvironment (some "dev") = .config practiceEnv := by decide
example : getCurrentEnvironment none = .config practiceEnv := by decide
example : getCurrentEnvironment (some "valueOf") = .inherited "valueOf" := by decide
example : makeRequest "put" "/x" none [] none
    = .error "Unsupported HTTP method: put" := rfl

/-! ### Claims -/

/-- One `recordInSuite` step preserves the counter identity of a suite. -/
theorem recordInSuite_inv (s : TestSuite) (r : TestResult)
    (h1 : s.total = s.passed + s.failed + s.skipped)
    (h2 : s.total = s.results.length) :
    (recordInSuite s r).total
        = (recordInSuite s r).passed + (recordInSuite s r).failed + (recordInSuite s r).skipped
    ∧ (recordInSuite s r).total = (recordInSuite s r).results.length := by
  cases hr : r.status <;> simp [recordInSuite, hr] <;> omega

/-- One `addTestResult` call preserves the counter identity of every
suite in the collection. -/
theorem addTestResult_inv (suiteName testName : String) (status : Status)
    (duration : Int) (error : Option String) (now env : String) :
    ∀ suites : List TestSuite,
      (∀ s ∈ suites, s.total = s.passed + s.failed + s.skipped
          ∧ s.total = s.results.length) →
      ∀ s ∈ addTestResult suites suiteName testName status duration error now env,
        s.total = s.passed + s.failed + s.skipped ∧ s.total = s.results.length := by
  intro suites
  induction suites with
  | nil =>
    intro _ s hs
    simp only [addTestResult, List.mem_singleton] at hs
    subst hs
    exact recordInSuite_inv _ _ (by simp [emptySuite]) (by simp [emptySuite])
  | cons head rest ih =>
    intro hinv s hs
    simp only [addTestResult] at hs
    by_cases hn : head.name = suiteName
    · rw [if_pos hn] at hs
      rcases List.mem_cons.mp hs with hs | hs
      · subst hs
        exact recordInSuite_inv _ _ (hinv head (List.mem_cons_self _ _)).1
          (hinv head (List.mem_cons_self _ _)).2
      · exact hinv s (List.mem_cons_of_mem _ hs)
    · rw [if_neg hn] at hs
      rcases List.mem_cons.mp hs with hs | hs
      · subst hs
        exact hinv s (List.mem_cons_self _ _)
      · exact ih (fun u hu => hinv u (List.mem_cons_of_mem _ hu)) s hs

/-- Claim C1: after any sequence of `addTestResult` calls starting from the
empty collector, every suite satisfies
`total = passed + failed + skipped` and `total = length(results)`. -/
theorem c1_collector_invariant (calls : List RecordCall) (s : TestSuite)
    (hs : s ∈ runCalls calls) :
    s.total = s.passed + s.failed + s.skipped ∧ s.total = s.results.length := by
  have key : ∀ (cs : List RecordCall) (init : List TestSuite),
      (∀ u ∈ init, u.total = u.passed + u.failed + u.skipped
          ∧ u.total = u.results.length) →
      ∀ u ∈ cs.foldl
          (fun st c => addTestResult st c.suiteName c.testName c.status c.duration c.error c.now c.env)
          init,
        u.total = u.passed + u.failed + u.skipped ∧ u.total = u.results.length := by
    intro cs
    induction cs with
    | nil =>
      intro init h u hu
      exact h u hu
    | cons c rest ih =>
      intro init h u hu
      exact ih _ (addTestResult_inv c.suiteName c.testName c.status c.duration c.error c.now c.env init h) u hu
  exact key calls [] (by simp) s hs

/-- The two-call scenario used to witness the collector invariant. -/
def c1DemoCalls : List RecordCall :=
  [⟨"A", "t1", .passed, 5, none, "T", "practice"⟩,
   ⟨"A", "t2", .failed, 3, none, "T", "practice"⟩]

/-- The suite those two calls produce. -/
def c1DemoSuite : TestSuite :=
  ⟨"A", 2, 1, 1, 0, 8,
   [⟨"t1", .passed, 5, none, "T", "practice"⟩,
    ⟨"t2", .failed, 3, none, "T", "practice"⟩]⟩

/-- Witness for C1 at a concrete call sequence. -/
theorem c1_collector_invariant_witness :
    c1DemoSuite.total = c1DemoSuite.passed + c1DemoSuite.failed + c1DemoSuite.skipped
    ∧ c1DemoSuite.total = c1DemoSuite.results.length :=
  c1_collector_invariant c1DemoCalls c1DemoSuite (by decide)

/-- Evaluation rule for the spec-side rounded rate, once the value of
`round` is known. -/
theorem specSuccessRateStr_eval (p t : Nat) (n : ℤ) (ht : ¬ t = 0)
    (hn : round ((100 * (p : ℚ)) / (t : ℚ) * 10) = n) :
    specSuccessRateStr p t = toString (n / 10) ++ "." ++ toString (n % 10).natAbs := by
  unfold specSuccessRateStr
  rw [if_neg ht]
  show toString ((round ((100 * (p : ℚ)) / (t : ℚ) * 10) : ℤ) / 10) ++ "."
      ++ toString ((round ((100 * (p : ℚ)) / (t : ℚ) * 10) : ℤ) % 10).natAbs = _
  rw [hn]

/-- Claim C2, counterexample: at the collected state with 23 passed of 80
total the program prints 28.7 — the binary64 value of `(23 / 80) * 100`
is 28.749999999999996…, below the decimal tie 28.75 — while
`100 * 23 / 80` rounded to one decimal place is 28.8. -/
theorem c2_counterexample :
    summarySuccessRate [⟨"S", 80, 23, 57, 0, 0, []⟩] = "28.7"
    ∧ specSuccessRateStr (totalPassed [⟨"S", 80, 23, 57, 0, 0, []⟩])
        (totalTests [⟨"S", 80, 23, 57, 0, 0, []⟩]) = "28.8"
    ∧ ("28.7" : String) ≠ "28.8" := by
  refine ⟨?_, ?_, by decide⟩
  · have hT : totalTests [(⟨"S", 80, 23, 57, 0, 0, []⟩ : TestSuite)] = 80 := rfl
    have hP : totalPassed [(⟨"S", 80, 23, 57, 0, 0, []⟩ : TestSuite)] = 23 := rfl
    unfold summarySuccessRate
    rw [hT, hP]
    decide
  · have hT : totalTests [(⟨"S", 80, 23, 57, 0, 0, []⟩ : TestSuite)] = 80 := rfl
    have hP : totalPassed [(⟨"S", 80, 23, 57, 0, 0, []⟩ : TestSuite)] = 23 := rfl
    rw [hT, hP]
    have h288 : round ((100 * (23 : ℚ)) / (80 : ℚ) * 10) = 288 := by
      rw [round_eq]
      rw [show (100 * (23 : ℚ)) / (80 : ℚ) * 10 + 1 / 2 = ((288 : ℤ) : ℚ) by norm_num]
      exact Int.floor_intCast 288
    rw [specSuccessRateStr_eval 23 80 288 (by decide) h288]
    decide

/-- Claim C2, amended: the success rate printed by `generateSummary` is
`0` when the total test count is zero, and otherwise it is the binary64
evaluation of `(totalPassed / totalTests) * 100` formatted by
`toFixed(1)`. Away from floating-point rounding boundaries this agrees
with `100 * totalPassed / totalTests` rounded to one decimal place
(checked here at 1 of 2 and 2 of 3), but at decimal ties the double
evaluation can land below the tie, as at 23 of 80 where the program
prints 28.7 while exact rounding gives 28.8. -/
theorem c2_success_rate_binary64 (suites : List TestSuite) :
    (totalTests suites = 0 → summarySuccessRate suites = "0")
    ∧ (0 < totalTests suites →
        summarySuccessRate suites
          = jsToFixed1 (fl (ratMul (fl (mkRat (totalPassed suites : Int) (totalTests suites)))
              (mkRat 100 1))))
    ∧ summarySuccessRate [⟨"S", 2, 1, 1, 0, 0, []⟩] = specSuccessRateStr 1 2
    ∧ summarySuccessRate [⟨"S", 3, 2, 1, 0, 0, []⟩] = specSuccessRateStr 2 3
    ∧ summarySuccessRate [⟨"S", 80, 23, 57, 0, 0, []⟩] = "28.7"
    ∧ specSuccessRateStr 23 80 = "28.8" := by
  refine ⟨?_, ?_, ?_, ?_, ?_, ?_⟩
  · intro h
    simp [summarySuccessRate, h]
  · intro h
    unfold summarySuccessRate
    rw [if_pos h]
    rfl
  · have hT : totalTests [(⟨"S", 2, 1, 1, 0, 0, []⟩ : TestSuite)] = 2 := rfl
    have hP : totalPassed [(⟨"S", 2, 1, 1, 0, 0, []⟩ : TestSuite)] = 1 := rfl
    have h500 : round ((100 * (1 : ℚ)) / (2 : ℚ) * 10) = 500 := by
      rw [round_eq]
      exact Int.floor_eq_iff.mpr ⟨by norm_num, by norm_num⟩
    rw [specSuccessRateStr_eval 1 2 500 (by decide) h500]
    unfold summarySuccessRate
    rw [hT, hP]
    decide
  · have hT : totalTests [(⟨"S", 3, 2, 1, 0, 0, []⟩ : TestSuite)] = 3 := rfl
    have hP : totalPassed [(⟨"S", 3, 2, 1, 0, 0, []⟩ : TestSuite)] = 2 := rfl
    have h667 : round ((100 * (2 : ℚ)) / (3 : ℚ) * 10) = 667 := by
      rw [round_eq]
      exact Int.floor_eq_iff.mpr ⟨by norm_num, by norm_num⟩
    rw [specSuccessRateStr_eval 2 3 667 (by decide) h667]
    unfold summarySuccessRate
    rw [hT, hP]
    decide
  · have hT : totalTests [(⟨"S", 80, 23, 57, 0, 0, []⟩ : TestSuite)] = 80 := rfl
    have hP : totalPassed [(⟨"S", 80, 23, 57, 0, 0, []⟩ : TestSuite)] = 23 := rfl
    unfold summarySuccessRate
    rw [hT, hP]
    decide
  · have h288 : round ((100 * (23 : ℚ)) / (80 : ℚ) * 10) = 288 := by
      rw [round_eq]
      rw [show (100 * (23 : ℚ)) / (80 : ℚ) * 10 + 1 / 2 = ((288 : ℤ) : ℚ) by norm_num]
      exact Int.floor_intCast 288
    rw [specSuccessRateStr_eval 23 80 288 (by decide) h288]
    decide

/-- Witness for the amended C2 at the empty collector. -/
theorem c2_success_rate_binary64_witness :
    summarySuccessRate [] = "0" :=
  (c2_success_rate_binary64 []).1 rfl

/-- Claim C5: any method whose upper-cased form is none of GET, POST,
PATCH, DELETE makes `makeRequest` (and `makeRequestWithoutAuth`) throw
`Unsupported HTTP method: <method>` without dispatching any request. -/
theorem c5_unsupported_method (method endpoint : String) (data : Option String)
    (customHeaders : List (String × String)) (authToken : Option String)
    (h : jsToUpper method ∉ (["GET", "POST", "PATCH", "DELETE"] : List String)) :
    makeRequest method endpoint data customHeaders authToken
        = .error ("Unsupported HTTP method: " ++ method)
    ∧ makeRequestWithoutAuth method endpoint data customHeaders
        = .error ("Unsupported HTTP method: " ++ method) := by
  simp only [List.mem_cons, List.mem_singleton, not_or] at h
  obtain ⟨hg, hp, hpa, hd⟩ := h
  constructor
  · unfold makeRequest
    split <;> simp_all
  · unfold makeRequestWithoutAuth
    split <;> simp_all

/-- Witness for C5 at the concrete verb `put` (upper-cased to the
unsupported `PUT`). -/
theorem c5_unsupported_method_witness :
    makeRequest "put" "/notes/api/users/login" none [] none
        = .error "Unsupported HTTP method: put"
    ∧ makeRequestWithoutAuth "put" "/notes/api/users/login" none []
        = .error "Unsupported HTTP method: put" :=
  c5_unsupported_method "put" "/notes/api/users/login" none [] none (by decide)

/-- Claim C6: the two-call scenario `record("Auth","login-ok","passed",120)`
then `record("Auth","login-fail","failed",80)` yields global totals
passed 1, failed 1, skipped 0, total 2, duration 200 ms, and the success
rate renders as `50.0`. -/
theorem c6_scenario (t1 t2 e1 e2 : String) :
    totalPassed (addTestResult (addTestResult [] "Auth" "login-ok" .passed 120 none t1 e1)
        "Auth" "login-fail" .failed 80 none t2 e2) = 1
    ∧ totalFailed (addTestResult (addTestResult [] "Auth" "login-ok" .passed 120 none t1 e1)
        "Auth" "login-fail" .failed 80 none t2 e2) = 1
    ∧ totalSkipped (addTestResult (addTestResult [] "Auth" "login-ok" .passed 120 none t1 e1)
        "Auth" "login-fail" .failed 80 none t2 e2) = 0
    ∧ totalTests (addTestResult (addTestResult [] "Auth" "login-ok" .passed 120 none t1 e1)
        "Auth" "login-fail" .failed 80 none t2 e2) = 2
    ∧ totalDuration (addTestResult (addTestResult [] "Auth" "login-ok" .passed 120 none t1 e1)
        "Auth" "login-fail" .failed 80 none t2 e2) = 200
    ∧ summarySuccessRate (addTestResult (addTestResult [] "Auth" "login-ok" .passed 120 none t1 e1)
        "Auth" "login-fail" .failed 80 none t2 e2) = "50.0" := by
  refine ⟨rfl, rfl, rfl, rfl, rfl, ?_⟩
  have hT : totalTests (addTestResult (addTestResult [] "Auth" "login-ok" .passed 120 none t1 e1)
      "Auth" "login-fail" .failed 80 none t2 e2) = 2 := rfl
  have hP : totalPassed (addTestResult (addTestResult [] "Auth" "login-ok" .passed 120 none t1 e1)
      "Auth" "login-fail" .failed 80 none t2 e2) = 1 := rfl
  unfold summarySuccessRate
  rw [hT, hP]
  decide

/-- Claim C4, counterexample: with the results file absent, the defaulted
duration is the string `0s`, not `0.00s`, and no warning is logged. -/
theorem c4_counterexample :
    (getTestResults .absent).1.duration = "0s"
    ∧ (getTestResults .absent).1.duration ≠ "0.00s"
    ∧ (getTestResults .absent).2 = [] :=
  ⟨rfl, by decide, rfl⟩

/-- Claim C4, amended: with the results file absent, `getTestResults`
returns the all-zero summary whose duration defaults to `0s`, the derived
success rate is `0`, and nothing is logged; the warning is printed only by
the catch branch, when the file exists but cannot be read or parsed. -/
theorem c4_missing_file_defaults :
    getTestResults .absent = (defaultJsResults, [])
    ∧ defaultJsResults = ⟨0, 0, 0, 0, "0s"⟩
    ∧ jsSuccessRate (getTestResults .absent).1 = "0"
    ∧ (getTestResults .malformed).1 = defaultJsResults
    ∧ (getTestResults .malformed).2 = ["⚠️ Could not read test results, using defaults"] :=
  ⟨rfl, rfl, rfl, rfl, rfl⟩

/-- Claim C10, counterexample: `TEST_ENV=toString` is not a configured
environment name, yet `ENVIRONMENTS["toString"]` finds the truthy member
inherited from `Object.prototype`, so `getCurrentEnvironment` returns that
inherited value rather than the practice configuration. -/
theorem c10_counterexample :
    getCurrentEnvironment (some "toString") = .inherited "toString"
    ∧ PropValue.inherited "toString" ≠ .config practiceEnv :=
  ⟨by decide, by decide⟩

/-- Claim C10, amended: any `TEST_ENV` value that is neither a configured
environment name nor a property name inherited from `Object.prototype`
(and likewise the unset and empty values) selects the practice
configuration; an inherited name such as `toString` instead yields the
truthy prototype member, bypassing the fallback. -/
theorem c10_environment_fallback (testEnv : Option String)
    (h : (match testEnv with
          | some s =>
            !(["practice", "staging", "production"] : List String).contains s
              && !objectPrototypeKeys.contains s
          | none => true) = true) :
    getCurrentEnvironment testEnv = .config practiceEnv
    ∧ getCurrentEnvironment (some "toString") = .inherited "toString" := by
  refine ⟨?_, by decide⟩
  match testEnv with
  | none => rfl
  | some s =>
    rw [Bool.and_eq_true, Bool.not_eq_true', Bool.not_eq_true'] at h
    obtain ⟨ha, hb⟩ := h
    have h1 : s ≠ "practice" := by
      intro he
      subst he
      exact absurd ha (by decide)
    have h2 : s ≠ "staging" := by
      intro he
      subst he
      exact absurd ha (by decide)
    have h3 : s ≠ "production" := by
      intro he
      subst he
      exact absurd ha (by decide)
    by_cases hs : s = ""
    · subst hs
      rfl
    · show ((envLookup (envOrPractice (some s))).getD (.config practiceEnv))
          = .config practiceEnv
      have he : envOrPractice (some s) = s := by
        show (if s = "" then "practice" else s) = s
        rw [if_neg hs]
      have b1 : (s == "practice") = false := beq_eq_false_iff_ne.mpr h1
      have b2 : (s == "staging") = false := beq_eq_false_iff_ne.mpr h2
      have b3 : (s == "production") = false := beq_eq_false_iff_ne.mpr h3
      rw [he]
      unfold envLookup
      have hl : ENVIRONMENTS.lookup s = none := by
        simp [ENVIRONMENTS, List.lookup, b1, b2, b3]
      rw [hl]
      simp at hb
      simp [hb]

/-- Witness for the amended C10 at a concrete unconfigured value. -/
theorem c10_environment_fallback_witness :
    getCurrentEnvironment (some "dev") = .config practiceEnv
    ∧ getCurrentEnvironment (some "toString") = .inherited "toString" :=
  c10_environment_fallback (some "dev") (by decide)

/-- String concatenation is associative. -/
theorem stringAppendAssoc (a b c : String) : a ++ b ++ c = a ++ (b ++ c) := by
  apply String.ext
  simp [String.data_append]

/-- `containsStr` is false exactly when the occurrence count is zero. -/
theorem containsStr_eq_false_iff (s pat : String) :
    containsStr s pat = false ↔ countOccurStr s pat = 0 := by
  unfold containsStr
  rw [bne_eq_false_iff_eq]

/-- `containsStr` is true exactly when the occurrence count is nonzero. -/
theorem containsStr_eq_true_iff (s pat : String) :
    containsStr s pat = true ↔ countOccurStr s pat ≠ 0 := by
  unfold containsStr
  rw [bne_iff_ne]

/-- An occurrence inside the middle part of `a ++ (b ++ c)` survives in the
whole. -/
theorem charListCount_ne_zero_mid (p a b c : List Char) (hp : p ≠ [])
    (h : charListCount p b ≠ 0) : charListCount p (a ++ (b ++ c)) ≠ 0 :=
  charListCount_append_right p a _ hp (charListCount_append_left p b c hp h)

/-- Claim C8: `generateHTMLReport` reads but does not mutate the collected
suites, and for fixed suite data and environment its output is a fixed
prefix, then the render-time timestamp, then a suffix determined by the
suites and environment alone — so two renders over identical suite data
produce identical HTML apart from the embedded timestamp. -/
theorem c8_pure_deterministic (suites : List TestSuite) (env : Option String) :
    (∀ now, (generateHTMLReportS suites now env).1 = suites)
    ∧ ∃ post : String, ∀ now,
        (generateHTMLReportS suites now env).2 = htmlDocHead ++ (now ++ post) := by
  refine ⟨fun now => rfl,
    ⟨htmlAfterNow
      ++ (statsSection (totalPassed suites) (totalFailed suites) (totalSkipped suites)
          (totalTests suites) (totalDuration suites)
        ++ (htmlAfterStats ++ (suitesSection suites
          ++ (htmlFooterA ++ (envOrPractice env ++ htmlFooterB))))), fun now => ?_⟩⟩
  show generateHTMLReport suites now env = _
  unfold generateHTMLReport
  simp only [stringAppendAssoc]

set_option maxRecDepth 400000 in
/-- Claim C3, counterexample: at the concrete empty collector the rendered
document embeds the statistics grid `statsSection 0 0 0 0 0`, and that grid
consists of five stat cards — there is no sixth card and no success-rate
card. -/
theorem c3_counterexample :
    generateHTMLReport [] "NOW" none
      = htmlDocHead ++ "NOW" ++ htmlAfterNow ++ statsSection 0 0 0 0 0 ++ htmlAfterStats
        ++ suitesSection [] ++ htmlFooterA ++ "practice" ++ htmlFooterB
    ∧ countOccurStr (statsSection 0 0 0 0 0) "<div class=\"stat-card\">" = 5
    ∧ containsStr (statsSection 0 0 0 0 0) "Success Rate" = false :=
  ⟨rfl, by decide, by decide⟩

set_option maxRecDepth 400000 in
/-- Claim C3, amended: the rendered document is the header (with the
render-time timestamp), the statistics grid over the five reduced totals —
five stat cards: passed, failed, skipped, total, duration in seconds, with
no success-rate card — then one block per suite in the suites' iteration
order, then the footer. The card counts are checked on two representative
grids. -/
theorem c3_stats_grid_and_suites (suites : List TestSuite) (now : String) (env : Option String) :
    generateHTMLReport suites now env
      = htmlDocHead ++ now ++ htmlAfterNow
        ++ statsSection (totalPassed suites) (totalFailed suites) (totalSkipped suites)
            (totalTests suites) (totalDuration suites)
        ++ htmlAfterStats ++ String.join (suites.map suiteBlock)
        ++ htmlFooterA ++ envOrPractice env ++ htmlFooterB
    ∧ countOccurStr (statsSection 0 0 0 0 0) "<div class=\"stat-card\">" = 5
    ∧ containsStr (statsSection 0 0 0 0 0) "Success Rate" = false
    ∧ countOccurStr (statsSection 7 8 9 24 1234) "<div class=\"stat-card\">" = 5
    ∧ containsStr (statsSection 7 8 9 24 1234) "Success Rate" = false :=
  ⟨rfl, by decide, by decide, by decide, by decide⟩

/-- Appending the empty string on the right is the identity. -/
theorem stringAppendEmpty (s : String) : s ++ "" = s := by
  apply String.ext
  simp [String.data_append, show ("" : String).data = [] from rfl]

/-- Appending the empty string on the left is the identity. -/
theorem stringEmptyAppend (s : String) : "" ++ s = s := by
  apply String.ext
  simp [String.data_append, show ("" : String).data = [] from rfl]

set_option maxRecDepth 400000 in
/-- Claim C7: with zero suites collected, the rendered document is the
fixed document whose statistics grid interpolates all-zero totals and whose
suites region is empty; at a representative timestamp and environment the
document contains the zero-valued passed, failed, skipped, total and
duration stat cards and holds no suite block at all. -/
theorem c7_zero_suites (now : String) (env : Option String) :
    generateHTMLReport [] now env
      = htmlDocHead ++ now ++ htmlAfterNow ++ statsSection 0 0 0 0 0 ++ htmlAfterStats
        ++ suitesSection [] ++ htmlFooterA ++ envOrPractice env ++ htmlFooterB
    ∧ suitesSection [] = ""
    ∧ containsStr (generateHTMLReport [] "7/21/2024, 3:45:12 PM" none)
        "<div class=\"stat-number passed\">0</div>" = true
    ∧ containsStr (generateHTMLReport [] "7/21/2024, 3:45:12 PM" none)
        "<div class=\"stat-number failed\">0</div>" = true
    ∧ containsStr (generateHTMLReport [] "7/21/2024, 3:45:12 PM" none)
        "<div class=\"stat-number skipped\">0</div>" = true
    ∧ containsStr (generateHTMLReport [] "7/21/2024, 3:45:12 PM" none)
        "<div class=\"stat-number\">0</div>" = true
    ∧ containsStr (generateHTMLReport [] "7/21/2024, 3:45:12 PM" none)
        "<div class=\"stat-number\">0.00s</div>" = true
    ∧ countOccurStr (generateHTMLReport [] "7/21/2024, 3:45:12 PM" none)
        "<div class=\"suite\">" = 0 := by
  have hsplit : generateHTMLReport [] "7/21/2024, 3:45:12 PM" none
      = (htmlDocHead ++ "7/21/2024, 3:45:12 PM" ++ htmlAfterNow)
        ++ (statsSection 0 0 0 0 0 ++ (htmlAfterStats ++ (suitesSection []
          ++ (htmlFooterA ++ (envOrPractice none ++ htmlFooterB))))) := by
    simp only [generateHTMLReport,
      show totalPassed [] = 0 from rfl, show totalFailed [] = 0 from rfl,
      show totalSkipped [] = 0 from rfl, show totalTests [] = 0 from rfl,
      show totalDuration [] = 0 from rfl, stringAppendAssoc]
  refine ⟨rfl, rfl, ?_, ?_, ?_, ?_, ?_, ?_⟩
  · refine (containsStr_eq_true_iff _ _).mpr ?_
    unfold countOccurStr
    rw [hsplit, String.data_append, String.data_append]
    exact charListCount_ne_zero_mid _ _ _ _ (by decide) (by decide)
  · refine (containsStr_eq_true_iff _ _).mpr ?_
    unfold countOccurStr
    rw [hsplit, String.data_append, String.data_append]
    exact charListCount_ne_zero_mid _ _ _ _ (by decide) (by decide)
  · refine (containsStr_eq_true_iff _ _).mpr ?_
    unfold countOccurStr
    rw [hsplit, String.data_append, String.data_append]
    exact charListCount_ne_zero_mid _ _ _ _ (by decide) (by decide)
  · refine (containsStr_eq_true_iff _ _).mpr ?_
    unfold countOccurStr
    rw [hsplit, String.data_append, String.data_append]
    exact charListCount_ne_zero_mid _ _ _ _ (by decide) (by decide)
  · refine (containsStr_eq_true_iff _ _).mpr ?_
    unfold countOccurStr
    rw [hsplit, String.data_append, String.data_append]
    exact charListCount_ne_zero_mid _ _ _ _ (by decide) (by decide)
  · unfold countOccurStr
    have hdoc : generateHTMLReport [] "7/21/2024, 3:45:12 PM" none
        = htmlDocHeadPart1 ++ (htmlDocHeadPart2 ++ (htmlDocHeadPart3 ++ (htmlDocHeadPart4
          ++ (htmlDocHeadPart5 ++ ("7/21/2024, 3:45:12 PM" ++ (htmlAfterNow
          ++ (statsSection 0 0 0 0 0 ++ (htmlAfterStats
          ++ (htmlFooterA ++ ("practice" ++ htmlFooterB)))))))))) := by
      simp only [generateHTMLReport, htmlDocHead,
        show suitesSection [] = "" from rfl,
        show envOrPractice none = "practice" from rfl,
        show totalPassed [] = 0 from rfl, show totalFailed [] = 0 from rfl,
        show totalSkipped [] = 0 from rfl, show totalTests [] = 0 from rfl,
        show totalDuration [] = 0 from rfl,
        stringAppendAssoc, stringAppendEmpty, stringEmptyAppend]
    rw [hdoc]
    simp only [String.data_append]
    refine charListCount_append_eq_zero _ _ _ (by decide) (by decide) ?_ (by decide)
    refine charListCount_append_eq_zero _ _ _ (by decide) (by decide) ?_ (by decide)
    refine charListCount_append_eq_zero _ _ _ (by decide) (by decide) ?_ (by decide)
    refine charListCount_append_eq_zero _ _ _ (by decide) (by decide) ?_ (by decide)
    refine charListCount_append_eq_zero _ _ _ (by decide) (by decide) ?_ (by decide)
    refine charListCount_append_eq_zero _ _ _ (by decide) (by decide) ?_ (by decide)
    refine charListCount_append_eq_zero _ _ _ (by decide) (by decide) ?_ (by decide)
    refine charListCount_append_eq_zero _ _ _ (by decide) (by decide) ?_ (by decide)
    refine charListCount_append_eq_zero _ _ _ (by decide) (by decide) ?_ (by decide)
    refine charListCount_append_eq_zero _ _ _ (by decide) (by decide) ?_ (by decide)
    decide

/-- A passed result carrying an error string, for status-independence of
the error block. -/
def c9ErrResult1 : TestResult :=
  ⟨"login-ok", .passed, 120, some "expected 200 got 401", "T", "practice"⟩

/-- A skipped result carrying an error string. -/
def c9ErrResult2 : TestResult :=
  ⟨"skip-case", .skipped, 55, some "boom", "T", "practice"⟩

/-- A suite whose passed and skipped results both carry error strings. -/
def c9DemoSuite : TestSuite :=
  ⟨"Auth", 2, 1, 0, 1, 175, [c9ErrResult1, c9ErrResult2]⟩

/-- A suite whose results carry no error string (one error is absent, one
is the empty string, on a failed result). -/
def c9CleanSuite : TestSuite :=
  ⟨"Auth", 2, 1, 1, 0, 200,
   [⟨"login-ok", .passed, 120, none, "T", "practice"⟩,
    ⟨"login-fail", .failed, 80, some "", "T", "practice"⟩]⟩

set_option maxRecDepth 400000 in
/-- Claim C9: a result renders with an inline error-details block directly
after its entry exactly when it carries a non-empty error string, whatever
its status; the full document for a suite whose passed and skipped results
carry errors shows both blocks, and the document for a suite without error
strings (even with a failed result) holds no error-details div at all. -/
theorem c9_error_blocks (r : TestResult) :
    ((r.error = none ∨ r.error = some "") →
        renderResult r = resultEntry r ++ "\n                ")
    ∧ (∀ e, r.error = some e → e ≠ "" →
        renderResult r = resultEntry r ++ errorDetailsBlock e ++ "\n                ")
    ∧ containsStr (generateHTMLReport [c9DemoSuite] "NOW" none)
        "<div class=\"error-details\">expected 200 got 401</div>" = true
    ∧ containsStr (generateHTMLReport [c9DemoSuite] "NOW" none)
        "<div class=\"error-details\">boom</div>" = true
    ∧ countOccurStr (generateHTMLReport [c9CleanSuite] "NOW" none)
        "<div class=\"error-details\">" = 0 := by
  have hjoinD : suitesSection [c9DemoSuite] = suiteBlock c9DemoSuite := by
    simp [suitesSection, String.join, stringEmptyAppend]
  have hjoinC : suitesSection [c9CleanSuite] = suiteBlock c9CleanSuite := by
    simp [suitesSection, String.join, stringEmptyAppend]
  have hsplitD : generateHTMLReport [c9DemoSuite] "NOW" none
      = (htmlDocHead ++ "NOW" ++ htmlAfterNow
          ++ statsSection (totalPassed [c9DemoSuite]) (totalFailed [c9DemoSuite])
              (totalSkipped [c9DemoSuite]) (totalTests [c9DemoSuite])
              (totalDuration [c9DemoSuite])
          ++ htmlAfterStats)
        ++ (suiteBlock c9DemoSuite
          ++ (htmlFooterA ++ (envOrPractice none ++ htmlFooterB))) := by
    simp only [generateHTMLReport, hjoinD, stringAppendAssoc]
  refine ⟨?_, ?_, ?_, ?_, ?_⟩
  · intro h
    rcases h with h | h <;> simp [renderResult, h, stringAppendEmpty]
  · intro e he hne
    simp only [renderResult, he]
    rw [if_neg hne]
  · refine (containsStr_eq_true_iff _ _).mpr ?_
    unfold countOccurStr
    rw [hsplitD, String.data_append, String.data_append]
    exact charListCount_ne_zero_mid _ _ _ _ (by decide) (by decide)
  · refine (containsStr_eq_true_iff _ _).mpr ?_
    unfold countOccurStr
    rw [hsplitD, String.data_append, String.data_append]
    exact charListCount_ne_zero_mid _ _ _ _ (by decide) (by decide)
  · unfold countOccurStr
    have hdoc : generateHTMLReport [c9CleanSuite] "NOW" none
        = htmlDocHeadPart1 ++ (htmlDocHeadPart2 ++ (htmlDocHeadPart3 ++ (htmlDocHeadPart4
          ++ (htmlDocHeadPart5 ++ ("NOW" ++ (htmlAfterNow
          ++ (statsSection 1 1 0 2 200 ++ (htmlAfterStats
          ++ (suiteBlock c9CleanSuite
          ++ (htmlFooterA ++ ("practice" ++ htmlFooterB))))))))))) := by
      simp only [generateHTMLReport, htmlDocHead, hjoinC,
        show envOrPractice none = "practice" from rfl,
        show totalPassed [c9CleanSuite] = 1 from rfl,
        show totalFailed [c9CleanSuite] = 1 from rfl,
        show totalSkipped [c9CleanSuite] = 0 from rfl,
        show totalTests [c9CleanSuite] = 2 from rfl,
        show totalDuration [c9CleanSuite] = 200 from rfl,
        stringAppendAssoc]
    rw [hdoc]
    simp only [String.data_append]
    refine charListCount_append_eq_zero _ _ _ (by decide) (by decide) ?_ (by decide)
    refine charListCount_append_eq_zero _ _ _ (by decide) (by decide) ?_ (by decide)
    refine charListCount_append_eq_zero _ _ _ (by decide) (by decide) ?_ (by decide)
    refine charListCount_append_eq_zero _ _ _ (by decide) (by decide) ?_ (by decide)
    refine charListCount_append_eq_zero _ _ _ (by decide) (by decide) ?_ (by decide)
    refine charListCount_append_eq_zero _ _ _ (by decide) (by decide) ?_ (by decide)
    refine charListCount_append_eq_zero _ _ _ (by decide) (by decide) ?_ (by decide)
    refine charListCount_append_eq_zero _ _ _ (by decide) (by decide) ?_ (by decide)
    refine charListCount_append_eq_zero _ _ _ (by decide) (by decide) ?_ (by decide)
    refine charListCount_append_eq_zero _ _ _ (by decide) (by decide) ?_ (by decide)
    refine charListCount_append_eq_zero _ _ _ (by decide) (by decide) ?_ (by decide)
    decide

/-- A skipped result carrying an error string, for the C9 witness. -/
def c9WitnessResult : TestResult :=
  ⟨"t", .skipped, 10, some "boom", "T", "practice"⟩

/-- Witness for C9: the error block is rendered for a skipped result with a
non-empty error string. -/
theorem c9_error_blocks_witness :
    renderResult c9WitnessResult
      = resultEntry c9WitnessResult ++ errorDetailsBlock "boom" ++ "\n                " :=
  (c9_error_blocks c9WitnessResult).2.1 "boom" rfl (by decide)

end PwApi
